import Mathlib

/-!
Shallow embedding of the ingestion-job lifecycle of the
user-document-management backend (the `IngestionService` and its
collaborating entities), together with theorems settling the claims
about its retry, webhook and execution behaviour.

Modelling conventions:
- machine time (`Date.now()`, `new Date()`) is a `Nat` of milliseconds
  passed in explicitly as `now`;
- nullable / possibly-undefined fields are `Option`;
- opaque JSON-ish values (parameters, outputData, processing results)
  are an abstract `Payload` type; the `\x7b\x7d` empty-object literal is
  `Payload.emptyObject`;
- JavaScript truthiness defaulting (`x || d`) is embedded by the
  `jsNumOr` / `jsStrOr` / `jsStrOrOpt` helpers: `0` and the empty string
  are falsy, objects are truthy exactly when present;
- the job's status cell is a `JsStatus`, not the bare enum: the webhook
  path stores the raw result of the JavaScript `statusMap` lookup, which
  for tokens naming an `Object.prototype` property returns the truthy
  inherited member rather than falling back to FAILED;
- the TypeORM repository is a `StoreState`: a list of persisted job rows
  plus the next auto-generated primary key; `insertJob` models saving a
  fresh entity, `saveJob` models saving an entity that already has an id
  (update by primary key);
- thrown `BadRequestException` / `NotFoundException` become
  `Except ServiceError`; the asynchronous fire-and-forget hand-off to
  `processJob` is modelled by exposing the scheduled document ids and by
  `processJob` itself as a separate state transformer.
-/

/-- Status enum of an ingestion job (entity `IngestionStatus`). -/
inductive IngestionStatus
  | pending
  | processing
  | completed
  | failed
  | retrying
deriving DecidableEq, Repr

/-- A value the job's status cell can hold at runtime. The webhook path
assigns `statusMap[externalStatus]` — a JavaScript object-literal
lookup that consults the prototype chain — so besides a genuine
`IngestionStatus` member the cell can receive a member inherited from
`Object.prototype` (a function such as `toString`, or the prototype
object itself for `__proto__`), identified here by the property name
that produced it. Every such inherited member is truthy. -/
inductive JsStatus
  | enum (s : IngestionStatus)
  | protoMember (name : String)
deriving DecidableEq, Repr

/-- Processing type enum of an ingestion job (entity `IngestionType`). -/
inductive IngestionType
  | ocr
  | textExtraction
  | documentClassification
  | dataExtraction
deriving DecidableEq, Repr

/-- Opaque JSON payload values (parameters, output data, processing
results). `emptyObject` models the empty-object literal used as the
default for `parameters`. -/
inductive Payload
  | emptyObject
  | atom (s : String)
deriving DecidableEq, Repr

/-- A stored document row, with the fields the ingestion service reads. -/
structure Document where
  id : Nat
  title : String
  filePath : String
  originalFileName : String
  mimeType : String
  createdById : Nat
deriving DecidableEq, Repr

/-- The per-document metadata snapshot captured into `inputData`. -/
structure DocSnapshot where
  id : Nat
  title : String
  filePath : String
  fileName : String
  mimeType : String
deriving DecidableEq, Repr

/-- The `inputData` JSON blob: document ids plus their snapshots. -/
structure InputData where
  documentIds : List Nat
  documents : List DocSnapshot
deriving DecidableEq, Repr

/-- An ingestion job row (entity `IngestionJob`). The system-managed
`createdAt` and `updatedAt` columns are not touched by the service logic
and are omitted. -/
structure IngestionJob where
  id : Nat
  name : String
  description : Option String
  type : IngestionType
  status : JsStatus
  progress : Nat
  errorMessage : Option String
  retryCount : Nat
  maxRetries : Nat
  parameters : Payload
  inputData : Option InputData
  outputData : Option Payload
  externalJobId : Option String
  startedAt : Option Nat
  completedAt : Option Nat
  nextRetryAt : Option Nat
  createdById : Nat
deriving DecidableEq, Repr

/-- The trigger request body (`TriggerIngestionDto`). -/
structure TriggerIngestionDto where
  name : Option String
  description : Option String
  type : IngestionType
  documentIds : List Nat
  parameters : Option Payload
  maxRetries : Option Nat
deriving DecidableEq, Repr

/-- The webhook status-update body as received by `updateJobStatus`
(the controller forwards `status` as its raw string token). -/
structure StatusUpdate where
  status : String
  progress : Option Nat
  error : Option String
  output : Option Payload
deriving DecidableEq, Repr

/-- Result contract of the Processing Invoker
(`ProcessingService.processDocuments`). -/
structure ProcessingResult where
  success : Bool
  data : Option Payload
  error : Option String
deriving DecidableEq, Repr

/-- The exceptions the service throws synchronously:
`NotFoundException` and `BadRequestException`. -/
inductive ServiceError
  | notFound (msg : String)
  | badRequest (msg : String)
deriving DecidableEq, Repr

/-- The job repository: persisted rows plus the next primary key. -/
structure StoreState where
  jobs : List IngestionJob
  nextId : Nat
deriving DecidableEq, Repr

/-- JavaScript `x || d` on an optional number: `undefined` and `0` are
falsy, so both fall back to the default. -/
def jsNumOr (x : Option Nat) (d : Nat) : Nat :=
  match x with
  | none => d
  | some n => if n = 0 then d else n

/-- JavaScript `x || d` on an optional string: `undefined` and the empty
string are falsy. -/
def jsStrOr (x : Option String) (d : String) : String :=
  match x with
  | none => d
  | some s => if s = "" then d else s

/-- JavaScript `x || old` where both sides are nullable strings. -/
def jsStrOrOpt (x : Option String) (old : Option String) : Option String :=
  match x with
  | none => old
  | some s => if s = "" then old else some s

/-- Repository `save` of a fresh entity: assign the next primary key and
append the row. Returns the new state and the saved entity. -/
def insertJob (s : StoreState) (job : IngestionJob) : StoreState × IngestionJob :=
  let j := { job with id := s.nextId }
  ({ jobs := s.jobs ++ [j], nextId := s.nextId + 1 }, j)

/-- Repository `save` of an entity that already has an id: update by
primary key. -/
def saveJob (s : StoreState) (job : IngestionJob) : StoreState :=
  { s with jobs := s.jobs.map fun x => if x.id == job.id then job else x }

/-- `IngestionService.findOne`: look up by id, then check ownership.
The `formatJobResponse` wrapper only reshapes the `createdBy` relation,
which is not part of the row model, so the row is returned as-is. -/
def findOne (jobs : List IngestionJob) (id userId : Nat) :
    Except ServiceError IngestionJob :=
  match jobs.find? (fun j => j.id == id) with
  | none => Except.error (ServiceError.notFound "Ingestion job not found")
  | some job =>
      if job.createdById ≠ userId then
        Except.error (ServiceError.badRequest "Access denied to this ingestion job")
      else
        Except.ok job

/-- `IngestionService.validateDocuments`: resolve the requested ids and
check count and ownership. -/
def validateDocuments (docTable : List Document) (documentIds : List Nat)
    (userId : Nat) : Except ServiceError (List Document) :=
  let documents := docTable.filter fun d => documentIds.contains d.id
  if documents.length ≠ documentIds.length then
    Except.error (ServiceError.badRequest "Some documents not found")
  else
    let unauthorizedDocs := documents.filter fun d => d.createdById ≠ userId
    if unauthorizedDocs.length > 0 then
      Except.error (ServiceError.badRequest "Access denied to some documents")
    else
      Except.ok documents

/-- The entity built by `ingestionJobRepository.create` inside
`triggerIngestion`, before any persist (so with no id and no external
job id yet). `now` feeds the timestamped default name. -/
def createRecord (dto : TriggerIngestionDto) (userId now : Nat)
    (documents : List Document) : IngestionJob :=
  { id := 0
    name := jsStrOr dto.name ("Ingestion Job " ++ toString now)
    description := dto.description
    type := dto.type
    status := JsStatus.enum IngestionStatus.pending
    progress := 0
    errorMessage := none
    retryCount := 0
    maxRetries := jsNumOr dto.maxRetries 3
    parameters := dto.parameters.getD Payload.emptyObject
    inputData := some
      { documentIds := dto.documentIds
        documents := documents.map fun d =>
          { id := d.id
            title := d.title
            filePath := d.filePath
            fileName := d.originalFileName
            mimeType := d.mimeType } }
    outputData := none
    externalJobId := none
    startedAt := none
    completedAt := none
    nextRetryAt := none
    createdById := userId }

/-- The external job id string built in `triggerIngestion`:
a fixed prefix, `Date.now()`, and a random base-36 suffix. There is no
lookup against existing ids before using it. -/
def generateExternalJobId (now : Nat) (randSuffix : String) : String :=
  "ext_job_" ++ toString now ++ "_" ++ randSuffix

/-- The assignment `savedJob.externalJobId = externalJobId` performed
between the two persists of `triggerIngestion`. -/
def assignExternalId (job : IngestionJob) (now : Nat) (randSuffix : String) :
    IngestionJob :=
  { job with externalJobId := some (generateExternalJobId now randSuffix) }

/-- `IngestionService.triggerIngestion`: validate documents, create and
persist the job, then assign and persist the external job id, then
return the job re-read through `findOne`. The asynchronous
`processJob` hand-off is fire-and-forget and does not affect the
returned value; it is modelled separately by `processJob`. -/
def triggerIngestion (docTable : List Document) (s : StoreState)
    (dto : TriggerIngestionDto) (userId now : Nat) (randSuffix : String) :
    Except ServiceError (StoreState × IngestionJob) :=
  match validateDocuments docTable dto.documentIds userId with
  | Except.error e => Except.error e
  | Except.ok documents =>
      let inserted := insertJob s (createRecord dto userId now documents)
      let savedJob := assignExternalId inserted.2 now randSuffix
      let s2 := saveJob inserted.1 savedJob
      match findOne s2.jobs savedJob.id userId with
      | Except.error e => Except.error e
      | Except.ok j => Except.ok (s2, j)

/-- `IngestionService.calculateNextRetry`: exponential backoff of
`2 ^ retryCount` minutes capped at 60, added to the current time in
milliseconds. -/
def calculateNextRetry (now : Nat) (retryCount : Nat) : Nat :=
  let delayMinutes := 2 ^ retryCount
  let maxDelayMinutes := 60
  let actualDelayMinutes := min delayMinutes maxDelayMinutes
  now + actualDelayMinutes * 60 * 1000

/-- The reset `retryJob` applies to a job before re-scheduling it:
RETRYING, progress 0, no error, retry count incremented, no next-retry
timestamp. -/
def retryReset (job : IngestionJob) : IngestionJob :=
  { job with
    status := JsStatus.enum IngestionStatus.retrying
    progress := 0
    errorMessage := none
    retryCount := job.retryCount + 1
    nextRetryAt := none }

/-- `IngestionService.retryJob`: look up and authorize via `findOne`,
reject unless the job is FAILED with retries remaining, otherwise reset
the job for retry, persist it, compute the document ids to re-schedule
from `inputData`, and return the job re-read through `findOne` together
with the new store and the scheduled document ids. -/
def retryJob (s : StoreState) (id userId : Nat) :
    Except ServiceError (StoreState × IngestionJob × List Nat) :=
  match findOne s.jobs id userId with
  | Except.error e => Except.error e
  | Except.ok job =>
      if job.status ≠ JsStatus.enum IngestionStatus.failed then
        Except.error (ServiceError.badRequest "Only failed jobs can be retried")
      else if job.retryCount ≥ job.maxRetries then
        Except.error (ServiceError.badRequest "Maximum retry attempts reached")
      else
        let job2 := retryReset job
        let s2 := saveJob s job2
        let documentIds := (job2.inputData.map fun d => d.documentIds).getD []
        match findOne s2.jobs job2.id userId with
        | Except.error e => Except.error e
        | Except.ok j => Except.ok (s2, j, documentIds)

/-- The property names `Object.prototype` owns in V8/Node. An object
literal such as `statusMap` inherits all of them, and each one is
truthy: a function, or the prototype object itself for `__proto__`. -/
def objectPrototypeKeys : List String :=
  ["constructor", "__defineGetter__", "__defineSetter__", "hasOwnProperty",
   "__lookupGetter__", "__lookupSetter__", "isPrototypeOf",
   "propertyIsEnumerable", "toString", "valueOf", "__proto__",
   "toLocaleString"]

/-- `IngestionService.mapExternalStatus`: the JavaScript lookup
`statusMap[externalStatus]` finds the four own entries first, then the
members inherited from `Object.prototype` — all of which are truthy, so
the `|| FAILED` fallback only fires when the lookup yields `undefined`,
that is, for tokens that are neither a recognized status nor an
`Object.prototype` property name. -/
def mapExternalStatus (externalStatus : String) : JsStatus :=
  if externalStatus = "pending" then JsStatus.enum IngestionStatus.pending
  else if externalStatus = "processing" then JsStatus.enum IngestionStatus.processing
  else if externalStatus = "completed" then JsStatus.enum IngestionStatus.completed
  else if externalStatus = "failed" then JsStatus.enum IngestionStatus.failed
  else if objectPrototypeKeys.contains externalStatus then
    JsStatus.protoMember externalStatus
  else JsStatus.enum IngestionStatus.failed

/-- The field updates `updateJobStatus` applies to a found job. -/
def applyStatusUpdate (job : IngestionJob) (upd : StatusUpdate) (now : Nat) :
    IngestionJob :=
  let job := { job with
    status := mapExternalStatus upd.status
    progress := jsNumOr upd.progress job.progress
    errorMessage := jsStrOrOpt upd.error job.errorMessage
    outputData := upd.output.or job.outputData }
  let job :=
    if upd.status = "processing" ∧ job.startedAt = none then
      { job with startedAt := some now }
    else job
  let job :=
    if upd.status = "completed" then
      { job with completedAt := some now, progress := 100 }
    else job
  let job :=
    if upd.status = "failed" then
      let job := { job with
        errorMessage := some (jsStrOr upd.error "Processing failed") }
      if job.retryCount < job.maxRetries then
        { job with nextRetryAt := some (calculateNextRetry now job.retryCount) }
      else job
    else job
  job

/-- `IngestionService.updateJobStatus`: look up by external job id; when
absent, log and return with the store untouched; otherwise apply the
update and persist. The routine throws nothing, which the total return
type reflects. -/
def updateJobStatus (s : StoreState) (externalJobId : String)
    (upd : StatusUpdate) (now : Nat) : StoreState :=
  match s.jobs.find? (fun j => j.externalJobId == some externalJobId) with
  | none => s
  | some job => saveJob s (applyStatusUpdate job upd now)

/-- Body of the `try` block of `IngestionService.processJob`, operating
on the in-memory entity: set PROCESSING and `startedAt`, drive the
ten-step progress simulation (net effect: progress reaches 100), then
dispatch to the Processing Invoker, whose outcome is either a result or
a thrown exception message. An error carries the entity as already
mutated by the block, since the catch clause sees those mutations. -/
def processJobTry (job : IngestionJob) (now : Nat)
    (outcome : Except String ProcessingResult) :
    Except (String × IngestionJob) IngestionJob :=
  let job := { job with status := JsStatus.enum IngestionStatus.processing, startedAt := some now }
  let job := { job with progress := 100 }
  match outcome with
  | Except.error e => Except.error (e, job)
  | Except.ok result =>
      if result.success then
        Except.ok { job with
          status := JsStatus.enum IngestionStatus.completed
          progress := 100
          outputData := result.data
          completedAt := some now }
      else
        let job := { job with
          status := JsStatus.enum IngestionStatus.failed
          errorMessage := some (jsStrOr result.error "Processing failed")
          completedAt := some now }
        let job :=
          if job.retryCount < job.maxRetries then
            { job with nextRetryAt := some (calculateNextRetry now job.retryCount) }
          else job
        Except.ok job

/-- `IngestionService.processJob`: run the try block; any exception is
caught locally and converted into a FAILED state on the mutated entity.
The routine itself never throws, which the total return type reflects.
The returned job is the finally-persisted row. -/
def processJob (job : IngestionJob) (now : Nat)
    (outcome : Except String ProcessingResult) : IngestionJob :=
  match processJobTry job now outcome with
  | Except.ok j => j
  | Except.error em =>
      let j := { em.2 with
        status := JsStatus.enum IngestionStatus.failed
        errorMessage := some (jsStrOr (some em.1) "Processing failed")
        completedAt := some now }
      if j.retryCount < j.maxRetries then
        { j with nextRetryAt := some (calculateNextRetry now j.retryCount) }
      else j

deriving instance DecidableEq for Except

/-! Concrete fixtures used to instantiate the theorems. -/

/-- A document owned by user 7. -/
def docA : Document :=
  { id := 1, title := "a", filePath := "p", originalFileName := "f",
    mimeType := "t", createdById := 7 }

/-- The empty job store. -/
def emptyStore : StoreState := { jobs := [], nextId := 1 }

/-- A minimal trigger request from user 7 for document 1 with an
explicit maxRetries of 3. -/
def dtoA : TriggerIngestionDto :=
  { name := some "j", description := none, type := IngestionType.ocr,
    documentIds := [1], parameters := none, maxRetries := some 3 }

/-- An all-defaults job row, used only as the fallback of `Option.getD`
when extracting from evaluated trigger results. -/
def blankJob : IngestionJob :=
  { id := 0, name := "", description := none, type := IngestionType.ocr,
    status := JsStatus.enum IngestionStatus.pending, progress := 0, errorMessage := none,
    retryCount := 0, maxRetries := 3, parameters := Payload.emptyObject,
    inputData := none, outputData := none, externalJobId := none,
    startedAt := none, completedAt := none, nextRetryAt := none,
    createdById := 0 }

/-- The job that `triggerIngestion` creates for `dtoA` at time 0 on the
empty store. -/
def jobA : IngestionJob :=
  ((triggerIngestion [docA] emptyStore dtoA 7 0 "r").toOption.map Prod.snd).getD blankJob

/-- The `inputData` snapshot that `triggerIngestion` records for `dtoA`. -/
def inputA : InputData :=
  { documentIds := [1]
    documents := [{ id := 1, title := "a", filePath := "p",
                    fileName := "f", mimeType := "t" }] }

/-- The fixture job evaluated to a literal row. -/
theorem jobA_eq : jobA =
    { id := 1, name := "j", description := none, type := IngestionType.ocr,
      status := JsStatus.enum IngestionStatus.pending, progress := 0, errorMessage := none,
      retryCount := 0, maxRetries := 3, parameters := Payload.emptyObject,
      inputData := some inputA,
      outputData := none, externalJobId := some "ext_job_0_r",
      startedAt := none, completedAt := none, nextRetryAt := none,
      createdById := 7 } := by
  decide

/-! Helper lemmas about lookup after save. -/

/-- Replacing every row that shares an id with `j` makes the next lookup
by that id return `j`, provided some row with that id was present. -/
theorem find?_map_replace (l : List IngestionJob) (i : Nat) (j : IngestionJob)
    (hj : j.id = i) (hfind : (l.find? fun x => x.id == i).isSome) :
    ((l.map fun x => if x.id == j.id then j else x).find? fun x => x.id == i)
      = some j := by
  induction l with
  | nil => simp [List.find?] at hfind
  | cons a t ih =>
      by_cases ha : a.id = i
      · have hrepl : (if a.id == j.id then j else a) = j := by
          simp [hj, ha]
        simp only [List.map_cons, hrepl]
        exact List.find?_cons_of_pos _ (by simp [hj])
      · have hrepl : (if a.id == j.id then j else a) = a := by
          simp [hj, ha]
        simp only [List.map_cons, hrepl]
        rw [List.find?_cons_of_neg _ (by simp [ha])]
        rw [List.find?_cons_of_neg _ (by simp [ha])] at hfind
        exact ih hfind

/-- Unpacking a successful `findOne`: the row was found by id, its id is
the one requested and it is owned by the requesting user. -/
theorem findOne_ok_elim {jobs : List IngestionJob} {id userId : Nat}
    {job : IngestionJob} (h : findOne jobs id userId = Except.ok job) :
    (jobs.find? fun x => x.id == id) = some job ∧
      job.id = id ∧ job.createdById = userId := by
  unfold findOne at h
  split at h
  · exact absurd h (by simp)
  · rename_i j0 hf
    split at h
    · exact absurd h (by simp)
    · rename_i hc
      obtain rfl := Except.ok.inj h
      exact ⟨hf, by simpa using List.find?_some hf, not_not.mp hc⟩

/-- A save of an owned row followed by `findOne` on its id returns the
saved row, provided a row with that id was already stored. -/
theorem findOne_saveJob (s : StoreState) (j : IngestionJob) (i userId : Nat)
    (hj : j.id = i) (hc : j.createdById = userId)
    (hfind : (s.jobs.find? fun x => x.id == i).isSome) :
    findOne (saveJob s j).jobs i userId = Except.ok j := by
  unfold findOne saveJob
  simp only
  rw [find?_map_replace s.jobs i j hj hfind]
  simp [hc]

/-! Further fixtures for the claim theorems. -/

/-- A webhook update reporting progress 0 while processing. -/
def updProc0 : StatusUpdate :=
  { status := "processing", progress := some 0, error := none, output := none }

/-- A webhook update carrying only the token `pending`. -/
def updPend : StatusUpdate :=
  { status := "pending", progress := none, error := none, output := none }

/-- The fixture job after completing. -/
def completedJobA : IngestionJob :=
  { jobA with status := JsStatus.enum IngestionStatus.completed, progress := 100 }

/-- The fixture job after a failure, with one stored error. -/
def failedJobA : IngestionJob :=
  { jobA with status := JsStatus.enum IngestionStatus.failed, errorMessage := some "x" }

/-- A store holding only the failed fixture job. -/
def storeF : StoreState := { jobs := [failedJobA], nextId := 2 }

/-- A stored job mid-run: progress 50 with an old error message. -/
def jobB : IngestionJob :=
  { jobA with
    id := 3
    progress := 50
    errorMessage := some "old"
    externalJobId := some "e9" }

/-! The claims. -/

/-- C1: for every retry count r, `calculateNextRetry` returns now plus
min(2 ^ r, 60) minutes, so for r = 0,1,2,3,4,5,6 the delay in minutes
is 1,2,4,8,16,32,60. -/
theorem c1_backoff_formula (now r : Nat) :
    calculateNextRetry now r = now + min (2 ^ r) 60 * 60 * 1000 ∧
    ((List.range 7).map fun k => calculateNextRetry 0 k / (60 * 1000)) =
      [1, 2, 4, 8, 16, 32, 60] :=
  ⟨rfl, by decide⟩

/-- C4: contrary to the claim, a caller-supplied maxRetries of 0 is not
kept: the JavaScript defaulting treats 0 as absent, so the created job
gets maxRetries 3; an omitted value gives 3 and a nonzero supplied
value is kept. -/
theorem c4_maxRetries_zero_replaced_by_default :
    ((triggerIngestion [docA] emptyStore
        { dtoA with maxRetries := some 0 } 7 0 "r").toOption.map
        fun p => p.2.maxRetries) = some 3 ∧
    (createRecord { dtoA with maxRetries := some 0 } 7 0 [docA]).maxRetries = 3 ∧
    (createRecord { dtoA with maxRetries := none } 7 0 [docA]).maxRetries = 3 ∧
    (createRecord { dtoA with maxRetries := some 5 } 7 0 [docA]).maxRetries = 5 := by
  decide

/-- C8: `updateJobStatus` with an external job id matching no stored job
returns the store unchanged — no exception, no job created, every
existing job untouched. -/
theorem c8_unknown_externalJobId_noop (s : StoreState) (extId : String)
    (upd : StatusUpdate) (now : Nat)
    (h : ∀ j ∈ s.jobs, j.externalJobId ≠ some extId) :
    updateJobStatus s extId upd now = s := by
  unfold updateJobStatus
  have hnone : s.jobs.find? (fun j => j.externalJobId == some extId) = none := by
    rw [List.find?_eq_none]
    intro x hx
    simpa using h x hx
  rw [hnone]

/-- C8 witness: a concrete store with one job and a foreign external id. -/
theorem c8_witness :
    updateJobStatus { jobs := [jobA], nextId := 2 } "other" updProc0 5 =
      { jobs := [jobA], nextId := 2 } :=
  c8_unknown_externalJobId_noop { jobs := [jobA], nextId := 2 } "other" updProc0 5
    (by decide)

/-- C9: contrary to the claim, a present progress of 0 is not applied:
the JavaScript defaulting treats 0 as falsy and keeps the stored
progress, while a nonzero present progress is applied and an absent
one keeps the stored value. -/
theorem c9_progress_zero_not_applied :
    (applyStatusUpdate jobB updProc0 5).progress = 50 ∧
    (applyStatusUpdate jobB { updProc0 with progress := some 75 } 5).progress = 75 ∧
    (applyStatusUpdate jobB { updProc0 with progress := none } 5).progress = 50 := by
  decide

/-- C10 counterexample: the token `toString` is unrecognized, yet the
status-map lookup hits the inherited `Object.prototype.toString` —
truthy — so the FAILED fallback never fires: the status written to a
COMPLETED job is the inherited member, not FAILED. -/
theorem c10_counterexample :
    mapExternalStatus "toString" = JsStatus.protoMember "toString" ∧
    mapExternalStatus "toString" ≠ JsStatus.enum IngestionStatus.failed ∧
    (applyStatusUpdate completedJobA
        { status := "toString", progress := none, error := none, output := none }
        5).status ≠ JsStatus.enum IngestionStatus.failed := by
  decide

/-- C10 amended: the looked-up status value is applied unconditionally,
whatever the job's current status (no transition guard, so a COMPLETED
job moves back to PENDING); the four recognized tokens map to their
statuses; a token that is neither recognized nor an `Object.prototype`
property name sets status to FAILED; but a token naming an inherited
`Object.prototype` member is truthy under the lookup, so that member —
not FAILED — is stored. -/
theorem c10_amended_status_unconditional (job : IngestionJob)
    (upd : StatusUpdate) (now : Nat) :
    (applyStatusUpdate job upd now).status = mapExternalStatus upd.status ∧
    mapExternalStatus "pending" = JsStatus.enum IngestionStatus.pending ∧
    mapExternalStatus "processing" = JsStatus.enum IngestionStatus.processing ∧
    mapExternalStatus "completed" = JsStatus.enum IngestionStatus.completed ∧
    mapExternalStatus "failed" = JsStatus.enum IngestionStatus.failed ∧
    (∀ t : String, t ≠ "pending" → t ≠ "processing" → t ≠ "completed" →
      t ≠ "failed" → t ∉ objectPrototypeKeys →
      mapExternalStatus t = JsStatus.enum IngestionStatus.failed) ∧
    (∀ t : String, t ∈ objectPrototypeKeys →
      mapExternalStatus t = JsStatus.protoMember t) := by
  refine ⟨?_, rfl, rfl, rfl, rfl, ?_, ?_⟩
  · simp only [applyStatusUpdate]
    split <;> split <;> split <;> (try split) <;> rfl
  · intro t h1 h2 h3 h4 h5
    simp [mapExternalStatus, h1, h2, h3, h4, h5]
  · intro t ht
    fin_cases ht <;> rfl

/-- C10 witness: a COMPLETED job is moved back to PENDING by a webhook
delivery, the unrecognized token `retrying` maps to FAILED, and the
prototype-member token `valueOf` yields the inherited member. -/
theorem c10_witness :
    (applyStatusUpdate completedJobA updPend 5).status = mapExternalStatus "pending" ∧
    mapExternalStatus "retrying" = JsStatus.enum IngestionStatus.failed ∧
    mapExternalStatus "valueOf" = JsStatus.protoMember "valueOf" :=
  ⟨(c10_amended_status_unconditional completedJobA updPend 5).1,
   (c10_amended_status_unconditional completedJobA updPend 5).2.2.2.2.2.1 "retrying"
     (by decide) (by decide) (by decide) (by decide) (by decide),
   (c10_amended_status_unconditional completedJobA updPend 5).2.2.2.2.2.2 "valueOf"
     (by decide)⟩

/-- C7: whatever the invoker outcome — a result or a thrown exception —
`processJob` leaves the job in a non-PROCESSING state, and an exception
is converted locally into FAILED with an error message set; the total
return type records that nothing propagates to the caller. -/
theorem c7_processJob_never_processing (job : IngestionJob) (now : Nat)
    (outcome : Except String ProcessingResult) :
    (processJob job now outcome).status ≠ JsStatus.enum IngestionStatus.processing ∧
    (∀ e, outcome = Except.error e →
      (processJob job now outcome).status = JsStatus.enum IngestionStatus.failed ∧
      (processJob job now outcome).errorMessage ≠ none) := by
  constructor
  · unfold processJob processJobTry
    cases outcome with
    | error e =>
        simp [apply_ite IngestionJob.status]
    | ok result =>
        by_cases hs : result.success
        · simp [hs]
        · simp [hs, apply_ite IngestionJob.status]
  · intro e he
    subst he
    unfold processJob processJobTry
    constructor
    · simp [apply_ite IngestionJob.status]
    · simp [apply_ite IngestionJob.errorMessage, jsStrOr]

/-- C7 witness: a thrown invoker exception on the fixture job yields a
FAILED, not PROCESSING, job with an error message. -/
theorem c7_witness :
    (processJob jobA 9 (Except.error "boom")).status ≠ JsStatus.enum IngestionStatus.processing ∧
    (processJob jobA 9 (Except.error "boom")).status = JsStatus.enum IngestionStatus.failed ∧
    (processJob jobA 9 (Except.error "boom")).errorMessage ≠ none :=
  ⟨(c7_processJob_never_processing jobA 9 (Except.error "boom")).1,
   ((c7_processJob_never_processing jobA 9 (Except.error "boom")).2 "boom" rfl).1,
   ((c7_processJob_never_processing jobA 9 (Except.error "boom")).2 "boom" rfl).2⟩

/-- A successful `retryJob` reduces to the reset row saved and returned
with the scheduled document ids. -/
theorem retryJob_ok_of (s : StoreState) (id userId : Nat)
    (job : IngestionJob) (h : findOne s.jobs id userId = Except.ok job)
    (hs : job.status = JsStatus.enum IngestionStatus.failed)
    (hr : job.retryCount < job.maxRetries) :
    retryJob s id userId =
      Except.ok (saveJob s (retryReset job), retryReset job,
        (job.inputData.map fun d => d.documentIds).getD []) := by
  obtain ⟨hfind, hid, hown⟩ := findOne_ok_elim h
  have hsave : findOne (saveJob s (retryReset job)).jobs (retryReset job).id userId
      = Except.ok (retryReset job) := by
    refine findOne_saveJob s (retryReset job) (retryReset job).id userId rfl hown ?_
    have hid2 : (retryReset job).id = id := hid
    rw [hid2, hfind]
    rfl
  unfold retryJob
  rw [h]
  simp only [hs]
  rw [if_neg (by simp), if_neg (by simpa using not_le.mpr hr)]
  simp only [hsave]
  rfl

/-- A retry of a non-FAILED job is rejected with the not-retryable
message. -/
theorem retryJob_err_not_failed (s : StoreState) (id userId : Nat)
    (job : IngestionJob) (h : findOne s.jobs id userId = Except.ok job)
    (hs : job.status ≠ JsStatus.enum IngestionStatus.failed) :
    retryJob s id userId =
      Except.error (ServiceError.badRequest "Only failed jobs can be retried") := by
  unfold retryJob
  rw [h]
  simp [hs]

/-- A retry with no attempts remaining is rejected with the max-retries
message. -/
theorem retryJob_err_max_retries (s : StoreState) (id userId : Nat)
    (job : IngestionJob) (h : findOne s.jobs id userId = Except.ok job)
    (hs : job.status = JsStatus.enum IngestionStatus.failed)
    (hr : job.retryCount ≥ job.maxRetries) :
    retryJob s id userId =
      Except.error (ServiceError.badRequest "Maximum retry attempts reached") := by
  unfold retryJob
  rw [h]
  simp [hs, hr]

/-- C2: assuming the job exists and is owned by the caller (that is,
`findOne` succeeds), `retryJob` fails with a BadRequestException exactly
when the status is not FAILED or the retry budget is exhausted, and in
every other case the retry is accepted. -/
theorem c2_retryJob_badRequest_iff (s : StoreState) (id userId : Nat)
    (job : IngestionJob) (h : findOne s.jobs id userId = Except.ok job) :
    ((∃ msg, retryJob s id userId = Except.error (ServiceError.badRequest msg)) ↔
      (job.status ≠ JsStatus.enum IngestionStatus.failed ∨ job.retryCount ≥ job.maxRetries)) ∧
    (job.status = JsStatus.enum IngestionStatus.failed → job.retryCount < job.maxRetries →
      ∃ out, retryJob s id userId = Except.ok out) := by
  by_cases hs : job.status = JsStatus.enum IngestionStatus.failed
  · by_cases hr : job.retryCount < job.maxRetries
    · have hok := retryJob_ok_of s id userId job h hs hr
      refine ⟨⟨?_, ?_⟩, ?_⟩
      · rintro ⟨msg, hmsg⟩
        rw [hok] at hmsg
        exact absurd hmsg (by simp)
      · rintro (hbad | hbad)
        · exact absurd hs hbad
        · exact absurd hbad (not_le.mpr hr)
      · intro _ _
        exact ⟨_, hok⟩
    · have herr := retryJob_err_max_retries s id userId job h hs (not_lt.mp hr)
      refine ⟨⟨?_, ?_⟩, ?_⟩
      · intro _
        exact Or.inr (not_lt.mp hr)
      · intro _
        exact ⟨_, herr⟩
      · intro _ hlt
        exact absurd hlt hr
  · have herr := retryJob_err_not_failed s id userId job h hs
    refine ⟨⟨?_, ?_⟩, ?_⟩
    · intro _
      exact Or.inl hs
    · intro _
      exact ⟨_, herr⟩
    · intro heq _
      exact absurd heq hs

/-- C2 witness: the concrete failed fixture job is retryable and the
characterization holds for it. -/
theorem c2_witness :
    ((∃ msg, retryJob storeF 1 7 = Except.error (ServiceError.badRequest msg)) ↔
      (failedJobA.status ≠ JsStatus.enum IngestionStatus.failed ∨
        failedJobA.retryCount ≥ failedJobA.maxRetries)) ∧
    (failedJobA.status = JsStatus.enum IngestionStatus.failed →
      failedJobA.retryCount < failedJobA.maxRetries →
      ∃ out, retryJob storeF 1 7 = Except.ok out) :=
  c2_retryJob_badRequest_iff storeF 1 7 failedJobA (by decide)

/-- C6: a successful retry transforms the job exactly to RETRYING with
progress 0, no error message, retryCount + 1 and no nextRetryAt; the
reset row is persisted and returned, and execution is re-scheduled with
the document ids taken from `inputData`. -/
theorem c6_retry_success_transform (s : StoreState) (id userId : Nat)
    (job : IngestionJob) (h : findOne s.jobs id userId = Except.ok job)
    (hs : job.status = JsStatus.enum IngestionStatus.failed)
    (hr : job.retryCount < job.maxRetries) :
    retryJob s id userId =
      Except.ok (saveJob s (retryReset job), retryReset job,
        (job.inputData.map fun d => d.documentIds).getD []) ∧
    (retryReset job).status = JsStatus.enum IngestionStatus.retrying ∧
    (retryReset job).progress = 0 ∧
    (retryReset job).errorMessage = none ∧
    (retryReset job).retryCount = job.retryCount + 1 ∧
    (retryReset job).nextRetryAt = none :=
  ⟨retryJob_ok_of s id userId job h hs hr, rfl, rfl, rfl, rfl, rfl⟩

/-- C6 witness: the transformation evaluated on the failed fixture job. -/
theorem c6_witness :
    retryJob storeF 1 7 =
      Except.ok (saveJob storeF (retryReset failedJobA), retryReset failedJobA,
        (failedJobA.inputData.map fun d => d.documentIds).getD []) ∧
    (retryReset failedJobA).status = JsStatus.enum IngestionStatus.retrying ∧
    (retryReset failedJobA).progress = 0 ∧
    (retryReset failedJobA).errorMessage = none ∧
    (retryReset failedJobA).retryCount = failedJobA.retryCount + 1 ∧
    (retryReset failedJobA).nextRetryAt = none :=
  c6_retry_success_transform storeF 1 7 failedJobA (by decide) (by decide) (by decide)

/-- The unsuccessful invoker result used in the first-failure scenario. -/
def failOutcome : Except String ProcessingResult :=
  Except.ok { success := false, data := none, error := some "boom" }

/-- C3 counterexample: for the job triggered with maxRetries 3, the
first execution failure (retryCount still 0) computes nextRetryAt as
now plus 2^0 = 1 minute; at now = 0 that is 60000 ms, not the 120000 ms
the claimed two-minute delay would give. -/
theorem c3_counterexample :
    (processJob jobA 0 failOutcome).status = JsStatus.enum IngestionStatus.failed ∧
    (processJob jobA 0 failOutcome).retryCount = 0 ∧
    (processJob jobA 0 failOutcome).nextRetryAt = some 60000 ∧
    (processJob jobA 0 failOutcome).nextRetryAt ≠ some 120000 := by
  decide

/-- C3 amended: a job triggered with maxRetries 3 whose first execution
fails ends FAILED with retryCount still 0 and nextRetryAt equal to now
plus one minute (min(2^0, 60) = 1), for every clock value. -/
theorem c3_amended_first_failure (now : Nat) :
    (processJob jobA now failOutcome).status = JsStatus.enum IngestionStatus.failed ∧
    (processJob jobA now failOutcome).retryCount = 0 ∧
    (processJob jobA now failOutcome).nextRetryAt = some (now + 1 * 60 * 1000) := by
  simp only [jobA_eq, failOutcome]
  unfold processJob processJobTry
  norm_num [calculateNextRetry, jsStrOr]

/-- The job a successful trigger returns carries exactly the freshly
generated external job id. -/
theorem triggerIngestion_ok_externalJobId (docTable : List Document)
    (s : StoreState) (dto : TriggerIngestionDto) (userId now : Nat)
    (rand : String) (s2 : StoreState) (j : IngestionJob)
    (h : triggerIngestion docTable s dto userId now rand = Except.ok (s2, j)) :
    j.externalJobId = some (generateExternalJobId now rand) := by
  unfold triggerIngestion at h
  cases hv : validateDocuments docTable dto.documentIds userId with
  | error e =>
      rw [hv] at h
      exact absurd h (by simp)
  | ok documents =>
      rw [hv] at h
      have hfind : ((s.jobs ++ [(insertJob s (createRecord dto userId now documents)).2]).find?
          fun x => x.id == (insertJob s (createRecord dto userId now documents)).2.id).isSome := by
        rw [Option.isSome_iff_ne_none]
        intro hnone
        rw [List.find?_eq_none] at hnone
        exact absurd
          (by simp :
            ((insertJob s (createRecord dto userId now documents)).2.id ==
              (insertJob s (createRecord dto userId now documents)).2.id) = true)
          (hnone _ (by simp))
      have hsave := findOne_saveJob
        (insertJob s (createRecord dto userId now documents)).1
        (assignExternalId (insertJob s (createRecord dto userId now documents)).2 now rand)
        (insertJob s (createRecord dto userId now documents)).2.id userId
        rfl rfl hfind
      replace h :
          (match findOne
              (saveJob (insertJob s (createRecord dto userId now documents)).1
                (assignExternalId
                  (insertJob s (createRecord dto userId now documents)).2 now rand)).jobs
              (insertJob s (createRecord dto userId now documents)).2.id
              userId with
            | Except.error e => Except.error e
            | Except.ok jj =>
                Except.ok
                  (saveJob (insertJob s (createRecord dto userId now documents)).1
                    (assignExternalId
                      (insertJob s (createRecord dto userId now documents)).2 now rand),
                   jj)) = Except.ok (s2, j) := h
      rw [hsave] at h
      replace h :
          Except.ok
            (saveJob (insertJob s (createRecord dto userId now documents)).1
              (assignExternalId
                (insertJob s (createRecord dto userId now documents)).2 now rand),
             assignExternalId
               (insertJob s (createRecord dto userId now documents)).2 now rand)
            = Except.ok (s2, j) := h
      have hj := (Prod.mk.injEq _ _ _ _).mp (Except.ok.inj h)
      rw [← hj.2]
      rfl

/-- The store after the fixture trigger. -/
def storeA : StoreState :=
  ((triggerIngestion [docA] emptyStore dtoA 7 0 "r").toOption.map Prod.fst).getD
    emptyStore

/-- The store after two triggers that observe the same clock value and
draw the same random suffix. -/
def storeTwice : StoreState :=
  match triggerIngestion [docA] storeA dtoA 7 0 "r" with
  | Except.ok q => q.1
  | Except.error _ => storeA

/-- C5 counterexample: two successive triggers that observe the same
timestamp and random suffix create two distinct jobs carrying the same
external job id — no collision is detected and nothing is regenerated,
so external ids are not unique across all jobs ever created. -/
theorem c5_counterexample :
    (storeTwice.jobs.map fun x => x.id) = [1, 2] ∧
    (storeTwice.jobs.map fun x => x.externalJobId) =
      [some "ext_job_0_r", some "ext_job_0_r"] := by
  decide

/-- C5 amended: the external id is assigned exactly once — the record
first persisted carries none and the job a successful trigger returns
carries the freshly generated non-empty id — and neither a webhook
update, nor execution, nor a retry reset changes the field; uniqueness,
however, is not enforced (see the counterexample). -/
theorem c5_amended_externalJobId (docTable : List Document) (s : StoreState)
    (dto : TriggerIngestionDto) (userId now : Nat) (rand : String)
    (s2 : StoreState) (j : IngestionJob)
    (h : triggerIngestion docTable s dto userId now rand = Except.ok (s2, j)) :
    j.externalJobId = some (generateExternalJobId now rand) ∧
    generateExternalJobId now rand ≠ "" ∧
    (∀ docs, (createRecord dto userId now docs).externalJobId = none) ∧
    (∀ job upd n, (applyStatusUpdate job upd n).externalJobId = job.externalJobId) ∧
    (∀ job n outcome, (processJob job n outcome).externalJobId = job.externalJobId) ∧
    (∀ job, (retryReset job).externalJobId = job.externalJobId) := by
  refine ⟨triggerIngestion_ok_externalJobId docTable s dto userId now rand s2 j h,
    ?_, fun docs => rfl, ?_, ?_, fun job => rfl⟩
  · intro hcon
    have hlen := congrArg String.length hcon
    simp only [generateExternalJobId, String.length_append] at hlen
    have h8 : "ext_job_".length = 8 := rfl
    have h0 : "".length = 0 := rfl
    omega
  · intro job upd n
    simp [applyStatusUpdate, apply_ite IngestionJob.externalJobId]
  · intro job n outcome
    unfold processJob processJobTry
    cases outcome with
    | error e => simp [apply_ite IngestionJob.externalJobId]
    | ok result =>
        by_cases hsucc : result.success
        · simp [hsucc]
        · simp [hsucc, apply_ite IngestionJob.externalJobId]

/-- C5 witness: the amended statement evaluated at the fixture trigger. -/
theorem c5_witness :
    jobA.externalJobId = some (generateExternalJobId 0 "r") ∧
    generateExternalJobId 0 "r" ≠ "" ∧
    (∀ docs, (createRecord dtoA 7 0 docs).externalJobId = none) ∧
    (∀ job upd n, (applyStatusUpdate job upd n).externalJobId = job.externalJobId) ∧
    (∀ job n outcome, (processJob job n outcome).externalJobId = job.externalJobId) ∧
    (∀ job, (retryReset job).externalJobId = job.externalJobId) :=
  c5_amended_externalJobId [docA] emptyStore dtoA 7 0 "r" storeA jobA (by decide)
